import Mathlib

/-!
Verification of the orchestration core of the Health Insurance Claim
Processor (services/claim_processor.py, services/pdf_processor.py, the
workflow agent construction, and the ClaimDecision response model).

The embedding is shallow: Python dicts become association lists, JSON-ish
dynamic values become the inductive `Val`, exceptions become `Except` /
explicit outcome types, and the opaque LLM workflow is a parameter
(`wf : List FileInfo → WfOutcome`) of the coordinator, exactly at the
boundary where `claim_processor.py` awaits `self._run_workflow`.
-/

namespace HICP

/-- A dynamically-typed value, standing for the Python/JSON values that
flow through the shared session state and the assembled report. -/
inductive Val where
  | null
  | bool (b : Bool)
  | num (n : Int)
  | str (s : String)
  | arr (elems : List Val)
  | obj (fields : List (String × Val))

/-- The per-run shared session state: a string-keyed mapping of stage
outputs (`session.state` in claim_processor.py). -/
def SessionState := List (String × Val)

/-- Python `dict.get(key)` on the session state: the value, or `none`
(rendered as JSON null) when the key is absent. -/
def SessionState.get? (s : SessionState) (k : String) : Option Val :=
  List.lookup k s

/-- Settings consumed by the core (utils/config.py): note that
`allowed_extensions` is a plain string (default "pdf") and the membership
test in pdf_processor.py is Python substring containment. -/
structure Settings where
  allowed_extensions : String
  max_file_size : Nat
  agent_timeout : Nat
deriving DecidableEq

/-- The defaults of utils/config.py. -/
def stDefault : Settings :=
  { allowed_extensions := "pdf", max_file_size := 10485760, agent_timeout := 1200 }

/-- A Python exception as observed by the coordinator: either a fastapi
HTTPException (status_code, detail) or any other exception carrying its
`str(e)` rendering. -/
inductive PyError where
  | http (status_code : Nat) (detail : String)
  | other (msg : String)
deriving DecidableEq

/-- Python `str(e)`: starlette renders an HTTPException as
"{status_code}: {detail}"; any other exception is its message. -/
def pyErrStr : PyError → String
  | .http code detail => toString code ++ ": " ++ detail
  | .other msg => msg

/-- Python substring containment `needle in hay` on strings. -/
def strContains (hay needle : String) : Bool :=
  (List.range (hay.data.length + 1)).any
    (fun i => needle.data.isPrefixOf (hay.data.drop i))

/-- The file-level outcome of pypdf text extraction for one uploaded file
(the pypdf interaction itself is an external collaborator): either the
extracted text, or the message of the exception pypdf raised. -/
inductive ExtractResult where
  | ok (text : String)
  | fail (msg : String)
deriving DecidableEq

/-- An uploaded file as seen by pdf_processor.py: `filename` and `size`
are optional attributes, `extract` abstracts the file's bytes by what
pypdf extraction does with them. -/
structure UploadFile where
  filename : Option String
  content_type : Option String
  size : Option Nat
  extract : ExtractResult
deriving DecidableEq

/-- Split a character list at its last dot: `some (before, after)` when a
dot occurs, where `before`/`after` are the characters before/after the
last dot. -/
def splitLastDot : List Char → Option (List Char × List Char)
  | [] => none
  | c :: cs =>
    match splitLastDot cs with
    | some (pre, post) => some (c :: pre, post)
    | none => if c == '.' then some ([], cs) else none

/-- Split a character list on a separator character, like str.split. -/
def splitOnChar (sep : Char) : List Char → List (List Char)
  | [] => [[]]
  | c :: cs =>
    match splitOnChar sep cs with
    | r :: rs => if c == sep then [] :: r :: rs else (c :: r) :: rs
    | [] => if c == sep then [[], []] else [[c]]

/-- `pathlib.Path(name).suffix`: the extension (with its dot) of the final
path component, empty when the last dot is leading or trailing. -/
def pathSuffix (name : String) : List Char :=
  let base := (splitOnChar '/' name.data).getLastD name.data
  match splitLastDot base with
  | some (pre, post) =>
      if pre ≠ [] ∧ post ≠ [] then '.' :: post else []
  | none => []

/-- `Path(filename).suffix.lower().replace('.', '')` from validate_files:
lower-case the suffix and delete every dot. -/
def fileExtension (filename : String) : String :=
  String.mk (((pathSuffix filename).map Char.toLower).filter (fun c => c != '.'))

/-- validate_files' per-file checks (pdf_processor.py lines 49-75):
missing/empty filename, extension containment in the allowed-extensions
string, and the optional size bound. -/
def validate_one (st : Settings) (f : UploadFile) : Except PyError Unit :=
  match f.filename with
  | none => .error (.http 400 "File must have a name")
  | some fn =>
    if fn = "" then .error (.http 400 "File must have a name")
    else
      let ext := fileExtension fn
      if ¬ strContains st.allowed_extensions ext then
        .error (.http 400 ("File " ++ fn ++ " has invalid extension. Allowed: " ++
          String.intercalate ", " (st.allowed_extensions.data.map Char.toString)))
      else
        match f.size with
        | some sz =>
          if sz > st.max_file_size then
            .error (.http 400 ("File " ++ fn ++ " exceeds maximum size of " ++
              toString st.max_file_size ++ " bytes"))
          else .ok ()
        | none => .ok ()

/-- The validation loop of validate_files over all files. -/
def validateEach (st : Settings) : List UploadFile → Except PyError Unit
  | [] => .ok ()
  | f :: fs =>
    match validate_one st f with
    | .error e => .error e
    | .ok () => validateEach st fs

/-- validate_files (pdf_processor.py lines 41-77): rejects the empty
batch with HTTP 400 "No files provided" before looking at any file, then
validates each file in order. -/
def validate_files (st : Settings) (files : List UploadFile) : Except PyError Unit :=
  if files.isEmpty then .error (.http 400 "No files provided")
  else validateEach st files

/-- extract_text_from_pdf (pdf_processor.py lines 79-136): its body
catches every exception and re-raises it as HTTPException(500,
"Failed to extract text from {filename}: {e}"), so the only error this
function can propagate is an HTTPException. -/
def extract_text_from_pdf (f : UploadFile) : Except PyError String :=
  match f.extract with
  | .ok text => .ok text
  | .fail msg =>
      .error (.http 500 ("Failed to extract text from " ++
        (match f.filename with | some fn => fn | none => "None") ++ ": " ++ msg))

/-- The per-file record appended by process_files. -/
structure FileInfo where
  filename : Option String
  content_type : Option String
  text_content : String
  character_count : Nat
  status : String
  error : Option String
deriving DecidableEq

/-- The success record of process_files (lines 157-163). -/
def mkSuccessInfo (f : UploadFile) (text : String) : FileInfo :=
  { filename := f.filename, content_type := f.content_type,
    text_content := text, character_count := text.length,
    status := "success", error := none }

/-- The failure record of process_files (lines 177-184), appended only in
the `except Exception` branch. -/
def mkFailedInfo (f : UploadFile) (msg : String) : FileInfo :=
  { filename := f.filename, content_type := f.content_type,
    text_content := "", character_count := 0,
    status := "failed", error := some msg }

/-- The per-file loop of process_files (lines 148-186): an HTTPException
from extraction is re-raised (aborting the loop), while any other
exception would append a failed-file record and continue. -/
def processLoop (acc : List FileInfo) : List UploadFile → Except PyError (List FileInfo)
  | [] => .ok acc.reverse
  | f :: fs =>
    match extract_text_from_pdf f with
    | .ok text => processLoop (mkSuccessInfo f text :: acc) fs
    | .error (.http code detail) => .error (.http code detail)
    | .error (.other msg) => processLoop (mkFailedInfo f msg :: acc) fs

/-- process_files (pdf_processor.py lines 138-208): validate, run the
per-file loop, then reject with HTTP 500 when no file succeeded. -/
def process_files (st : Settings) (files : List UploadFile) : Except PyError (List FileInfo) :=
  match validate_files st files with
  | .error e => .error e
  | .ok () =>
    match processLoop [] files with
    | .error e => .error e
    | .ok processed =>
      if (processed.filter (fun fi => fi.status == "success")).isEmpty then
        .error (.http 500 "Failed to process any of the provided files")
      else .ok processed

/-- Render an optional filename the way a Python f-string renders it. -/
def optFilename : Option String → String
  | some s => s
  | none => "None"

/-- One document section of the aggregate input blob
(claim_processor.py lines 116-122). -/
def formatSections (i : Nat) : List FileInfo → String
  | [] => ""
  | fi :: rest =>
      "=== Document " ++ toString i ++ ": " ++ optFilename fi.filename ++ " ===\n" ++
      (if fi.status == "success" then fi.text_content
       else "[Error: " ++ fi.error.getD "Processing failed" ++ "]") ++
      "\n\n" ++ formatSections (i + 1) rest

/-- _format_input_text (claim_processor.py lines 112-124). -/
def format_input_text (request_id : String) (processed : List FileInfo) : String :=
  "Process insurance claim " ++ request_id ++ " with " ++
    toString processed.length ++ " documents:\n\n" ++ formatSections 1 processed

/-- The outcome of awaiting the agent workflow under asyncio.wait_for:
the final session state, a TimeoutError, or any other exception's
`str(e)`. -/
inductive WfOutcome where
  | ok (s : SessionState)
  | timeout
  | exc (msg : String)

/-- The report dictionary returned by process_claim. `none` fields stand
for keys that are absent from (or Python `None` in) the dictionary. -/
structure Report where
  request_id : String
  processing_time : Nat
  timestamp : Nat
  workflow_status : String
  agent_outputs : Option (List (String × Option Val))
  raw_session_state : Option SessionState
  error : Option String
  recommended_actions : Option (List String)

/-- The six declared agent-output keys, in the order _create_final_response
lists them. -/
def agentOutputKeys : List String :=
  ["documents", "bill_data", "discharge_data", "claim_data",
   "validation_results", "claim_decision"]

/-- The agent_outputs object built by _create_final_response (lines
134-141): exactly six fixed keys, each bound to session_state.get(key). -/
def agent_outputs_of (s : SessionState) : List (String × Option Val) :=
  [("documents", s.get? "documents"),
   ("bill_data", s.get? "bill_data"),
   ("discharge_data", s.get? "discharge_data"),
   ("claim_data", s.get? "claim_data"),
   ("validation_results", s.get? "validation_results"),
   ("claim_decision", s.get? "claim_decision")]

/-- _create_final_response (claim_processor.py lines 126-144). -/
def create_final_response (request_id : String) (session_state : SessionState)
    (processing_time timestamp : Nat) : Report :=
  { request_id := request_id
    processing_time := processing_time
    timestamp := timestamp
    workflow_status := if session_state.isEmpty then "no_outputs" else "completed"
    agent_outputs := some (agent_outputs_of session_state)
    raw_session_state := some session_state
    error := none
    recommended_actions := none }

/-- _create_error_response (claim_processor.py lines 146-158): note the
recommendation is chosen by the substring test `"timeout" in error`. -/
def create_error_response (request_id : String) (processing_time timestamp : Nat)
    (error : String) : Report :=
  { request_id := request_id
    processing_time := processing_time
    timestamp := timestamp
    workflow_status := "error"
    agent_outputs := none
    raw_session_state := none
    error := some error
    recommended_actions :=
      some [if strContains error "timeout" then "Contact support" else "Retry processing"] }

/-- process_claim (claim_processor.py lines 39-70): run process_files and
the workflow inside one try, mapping TimeoutError to the error string
"timeout" and any other exception to its `str(e)`. The opaque agent
workflow is the parameter `wf`, applied to the processed files. -/
def process_claim (request_id : String) (st : Settings)
    (wf : List FileInfo → WfOutcome) (files : List UploadFile)
    (processing_time timestamp : Nat) : Report :=
  match process_files st files with
  | .error e => create_error_response request_id processing_time timestamp (pyErrStr e)
  | .ok pf =>
    match wf pf with
    | .timeout => create_error_response request_id processing_time timestamp "timeout"
    | .exc msg => create_error_response request_id processing_time timestamp msg
    | .ok s => create_final_response request_id s processing_time timestamp

/-! ## The workflow agent tree (workflow_agent.py and the sub-agent files) -/

/-- The shape of a configured agent: an LLM stage with its declared
output key, a parallel fan-out group, or a sequential pipeline. -/
inductive AgentTree where
  | llm (name : String) (output_key : String)
  | par (name : String) (sub : List AgentTree)
  | seq (name : String) (sub : List AgentTree)

/-- The sub-agent list of a composite agent. -/
def AgentTree.subAgents : AgentTree → List AgentTree
  | .llm _ _ => []
  | .par _ sub => sub
  | .seq _ sub => sub

/-- The declared output key of an agent, when it has one. -/
def AgentTree.outKey : AgentTree → Option String
  | .llm _ k => some k
  | _ => none

/-- The output keys declared by the members of a fan-out group. -/
def memberKeys (sub : List AgentTree) : List String :=
  sub.filterMap AgentTree.outKey

/-- document_agent.py: LlmAgent with output_key "documents". -/
def create_document_classification_agent : AgentTree :=
  .llm "DocumentClassificationAgent" "documents"

/-- bill_agent.py lines 96-109: LlmAgent with output_key "bill_data". -/
def create_bill_processing_agent : AgentTree :=
  .llm "BillProcessingAgent" "bill_data"

/-- discharge_agent.py: LlmAgent with output_key "discharge_data". -/
def create_discharge_processing_agent : AgentTree :=
  .llm "DischargeProcessingAgent" "discharge_data"

/-- claim_data_agent.py: LlmAgent with output_key "claim_data". -/
def create_claim_data_agent : AgentTree :=
  .llm "ClaimDataAgent" "claim_data"

/-- validation_agent.py: LlmAgent with output_key "validation_results". -/
def create_validation_agent : AgentTree :=
  .llm "ValidationAgent" "validation_results"

/-- claim_decision_agent.py: LlmAgent with output_key "claim_decision". -/
def create_claim_decision_agent : AgentTree :=
  .llm "ClaimDecisionAgent" "claim_decision"

/-- workflow_agent.py lines 49-69: the sequential pipeline of the
classification agent, the three-member parallel group, the validation
agent and the decision agent, in that order. -/
def create_health_insurance_claim_processor_agent : AgentTree :=
  .seq "HealthInsuranceClaimProcessorAgent"
    [create_document_classification_agent,
     .par "ParallelDocumentProcessingAgent"
       [create_bill_processing_agent,
        create_discharge_processing_agent,
        create_claim_data_agent],
     create_validation_agent,
     create_claim_decision_agent]

/-- Modelled from the spec: the fan-out constructor of the external
workflow library (google.adk ParallelAgent, whose sources are not part of
this repository) enforces the construction invariant that member output
keys are pairwise distinct, raising a configuration error at
pipeline-build time rather than at run time. -/
def ParallelAgentChecked (name : String) (sub : List AgentTree) : Except String AgentTree :=
  if (memberKeys sub).Nodup then .ok (.par name sub)
  else .error "configuration error: duplicate output keys in parallel group"

/-! ## The ClaimDecision response model (models/response.py lines 59-77) -/

/-- The Literal["approved", "rejected", "pending"] status field. -/
inductive DecisionStatus where
  | approved
  | rejected
  | pending
deriving DecidableEq

/-- The string a DecisionStatus renders as. -/
def DecisionStatus.toStr : DecisionStatus → String
  | .approved => "approved"
  | .rejected => "rejected"
  | .pending => "pending"

/-- Read a field of a JSON object value. -/
def objGet (v : Val) (k : String) : Option Val :=
  match v with
  | .obj fields => List.lookup k fields
  | _ => none

/-- Parse the Literal status values accepted by the pydantic model. -/
def decStatusOfString (s : String) : Option DecisionStatus :=
  if s = "approved" then some .approved
  else if s = "rejected" then some .rejected
  else if s = "pending" then some .pending
  else none

/-- The ClaimDecision pydantic model: required Literal status, required
string reason, optional confidence_score and recommended_actions. -/
structure ClaimDecision where
  status : DecisionStatus
  reason : String
  confidence_score : Option Val
  recommended_actions : Option Val

/-- The parsed status field of a candidate decision value: defined only
when the field is present, a string, and one of the three Literals. -/
def statusField (v : Val) : Option DecisionStatus :=
  match objGet v "status" with
  | some (Val.str st) => decStatusOfString st
  | _ => none

/-- The parsed required reason field of a candidate decision value. -/
def reasonField (v : Val) : Option String :=
  match objGet v "reason" with
  | some (Val.str r) => some r
  | _ => none

/-- Validation of a dynamic value against the ClaimDecision schema, as
the decision stage's output_schema does: it succeeds only when the value
is an object whose status field is one of the three Literal strings and
whose reason field is a string. -/
def ClaimDecision.validate (v : Val) : Option ClaimDecision :=
  match statusField v, reasonField v with
  | some ds, some r =>
      some { status := ds, reason := r,
             confidence_score := objGet v "confidence_score",
             recommended_actions := objGet v "recommended_actions" }
  | _, _ => none

/-! ## Concrete fixtures used by witnesses and counterexamples -/

/-- A well-formed PDF upload whose extraction succeeds. -/
def goodFile : UploadFile :=
  { filename := some "a.pdf", content_type := some "application/pdf",
    size := some 5, extract := .ok "hello" }

/-- An upload whose pypdf extraction raises. -/
def badFile : UploadFile :=
  { filename := some "b.pdf", content_type := some "application/pdf",
    size := some 10, extract := .fail "EOF marker not found" }

/-- The processed-file record process_files produces for goodFile. -/
def pfGood : List FileInfo :=
  [{ filename := some "a.pdf", content_type := some "application/pdf",
     text_content := "hello", character_count := 5,
     status := "success", error := none }]

/-- A workflow whose final state holds only a documents entry. -/
def wfDoc : List FileInfo → WfOutcome :=
  fun _ => .ok [("documents", Val.str "d")]

/-- A workflow that raises a non-timeout exception whose message happens
to contain the word timeout. -/
def wfUpstream : List FileInfo → WfOutcome :=
  fun _ => .exc "upstream timeout"

/-- A workflow that finishes with an empty session state. -/
def wfEmptyState : List FileInfo → WfOutcome :=
  fun _ => .ok []

/-- A workflow that exceeds the coordinator timeout. -/
def wfTimeout : List FileInfo → WfOutcome :=
  fun _ => .timeout

/-- A schema-conformant decision value. -/
def vDecision : Val :=
  Val.obj [("status", Val.str "approved"), ("reason", Val.str "ok")]

/-- The ClaimDecision that vDecision validates to. -/
def dApproved : ClaimDecision :=
  { status := .approved, reason := "ok",
    confidence_score := none, recommended_actions := none }

/-- A final session state holding a schema-conformant claim decision. -/
def sDecision : SessionState :=
  [("claim_decision", vDecision)]

/-- A workflow whose final state is sDecision. -/
def wfDecision : List FileInfo → WfOutcome :=
  fun _ => .ok sDecision

/-! ## Helper lemmas -/

/-- Inversion for the Literal status parser: a successful parse pins the
input string to the rendering of the parsed status. -/
theorem decStatusOfString_eq (st0 : String) (ds : DecisionStatus)
    (h : decStatusOfString st0 = some ds) : st0 = ds.toStr := by
  unfold decStatusOfString at h
  split at h
  next heq => subst heq; cases Option.some.inj h; rfl
  next =>
    split at h
    next heq => subst heq; cases Option.some.inj h; rfl
    next =>
      split at h
      next heq => subst heq; cases Option.some.inj h; rfl
      next => exact absurd h (by simp)

/-- Inversion for statusField: success forces the status field to be the
string form of the parsed status. -/
theorem statusField_eq (v : Val) (ds : DecisionStatus)
    (h : statusField v = some ds) : objGet v "status" = some (Val.str ds.toStr) := by
  unfold statusField at h
  cases hs : objGet v "status" with
  | none => rw [hs] at h; simp at h
  | some w =>
    rw [hs] at h
    cases w with
    | str st0 => rw [decStatusOfString_eq st0 ds h]
    | null => simp at h
    | bool b => simp at h
    | num n => simp at h
    | arr xs => simp at h
    | obj fs => simp at h

/-- Inversion for ClaimDecision.validate: a validated value has a parsed
status field equal to the status of the resulting record. -/
theorem validate_some (v : Val) (d : ClaimDecision)
    (h : ClaimDecision.validate v = some d) : statusField v = some d.status := by
  unfold ClaimDecision.validate at h
  cases hs : statusField v with
  | none => rw [hs] at h; simp at h
  | some ds =>
    cases hr : reasonField v with
    | none => rw [hs, hr] at h; simp at h
    | some r =>
      rw [hs, hr] at h
      cases Option.some.inj h
      rfl

/-! ## Claim theorems -/

/-- Claim C1: for every list of uploaded files (and every behaviour of the
opaque agent workflow), process_claim returns exactly one report and never
propagates an exception: it is a total function whose report always has
workflow_status equal to one of exactly "completed", "no_outputs" and
"error". -/
theorem C1_report_always_wellformed (rid : String) (st : Settings)
    (wf : List FileInfo → WfOutcome) (files : List UploadFile) (t ts : Nat) :
    (process_claim rid st wf files t ts).workflow_status = "completed" ∨
    (process_claim rid st wf files t ts).workflow_status = "no_outputs" ∨
    (process_claim rid st wf files t ts).workflow_status = "error" := by
  cases h : process_files st files with
  | error e => simp [process_claim, h, create_error_response]
  | ok pf =>
    cases h2 : wf pf with
    | ok s =>
      cases s with
      | nil => simp [process_claim, h, h2, create_final_response]
      | cons a l => simp [process_claim, h, h2, create_final_response]
    | timeout => simp [process_claim, h, h2, create_error_response]
    | exc m => simp [process_claim, h, h2, create_error_response]

/-- Claim C2: for every run that completes without timeout or exception,
the report's agent_outputs object is exactly the six-key object built over
the final shared state: its key list is precisely the six declared keys,
and each key is bound to the corresponding session-state entry (none,
rendered null, when absent). -/
theorem C2_agent_outputs_exactly_six_keys (rid : String) (st : Settings)
    (wf : List FileInfo → WfOutcome) (files : List UploadFile) (t ts : Nat)
    (pf : List FileInfo) (s : SessionState)
    (h1 : process_files st files = Except.ok pf) (h2 : wf pf = WfOutcome.ok s) :
    (process_claim rid st wf files t ts).agent_outputs = some (agent_outputs_of s) ∧
    (agent_outputs_of s).map Prod.fst = agentOutputKeys ∧
    (agent_outputs_of s).lookup "documents" = some (s.get? "documents") ∧
    (agent_outputs_of s).lookup "bill_data" = some (s.get? "bill_data") ∧
    (agent_outputs_of s).lookup "discharge_data" = some (s.get? "discharge_data") ∧
    (agent_outputs_of s).lookup "claim_data" = some (s.get? "claim_data") ∧
    (agent_outputs_of s).lookup "validation_results" = some (s.get? "validation_results") ∧
    (agent_outputs_of s).lookup "claim_decision" = some (s.get? "claim_decision") := by
  refine ⟨?_, rfl, rfl, rfl, rfl, rfl, rfl, rfl⟩
  simp [process_claim, h1, h2, create_final_response]

/-- Witness for C2: the concrete run over goodFile whose workflow writes
only a documents entry. -/
theorem C2_witness_concrete_run :
    (process_claim "r" stDefault wfDoc [goodFile] 0 0).agent_outputs =
      some (agent_outputs_of [("documents", Val.str "d")]) ∧
    (agent_outputs_of [("documents", Val.str "d")]).map Prod.fst = agentOutputKeys ∧
    (agent_outputs_of [("documents", Val.str "d")]).lookup "documents" =
      some (SessionState.get? [("documents", Val.str "d")] "documents") ∧
    (agent_outputs_of [("documents", Val.str "d")]).lookup "bill_data" =
      some (SessionState.get? [("documents", Val.str "d")] "bill_data") ∧
    (agent_outputs_of [("documents", Val.str "d")]).lookup "discharge_data" =
      some (SessionState.get? [("documents", Val.str "d")] "discharge_data") ∧
    (agent_outputs_of [("documents", Val.str "d")]).lookup "claim_data" =
      some (SessionState.get? [("documents", Val.str "d")] "claim_data") ∧
    (agent_outputs_of [("documents", Val.str "d")]).lookup "validation_results" =
      some (SessionState.get? [("documents", Val.str "d")] "validation_results") ∧
    (agent_outputs_of [("documents", Val.str "d")]).lookup "claim_decision" =
      some (SessionState.get? [("documents", Val.str "d")] "claim_decision") :=
  C2_agent_outputs_exactly_six_keys "r" stDefault wfDoc [goodFile] 0 0 pfGood
    [("documents", Val.str "d")] rfl rfl

/-- Counterexample to C3 as stated: a failed run whose failure is NOT the
coordinator timeout (the workflow raised an exception with message
"upstream timeout") nevertheless gets the recommendation
"Contact support", because _create_error_response chooses by the substring
test "timeout" in error, not by the failure cause. The claim demands
"Retry processing" for every non-timeout exception. -/
theorem C3_counterexample_nontimeout_contact_support :
    (process_claim "r" stDefault wfUpstream [goodFile] 0 0).workflow_status = "error" ∧
    (process_claim "r" stDefault wfUpstream [goodFile] 0 0).recommended_actions =
      some ["Contact support"] ∧
    (process_claim "r" stDefault wfUpstream [goodFile] 0 0).recommended_actions ≠
      some ["Retry processing"] :=
  ⟨rfl, rfl, by decide⟩

/-- Claim C3 as amended: every failed run yields workflow_status "error"
with null agent_outputs, and the recommendation is "Contact support" when
the error string contains "timeout" as a substring (in particular for the
coordinator timeout, whose error string is exactly "timeout") and
"Retry processing" otherwise, for each of the three failure modes of
process_claim. -/
theorem C3_amended_error_report_shape (rid : String) (st : Settings)
    (wf : List FileInfo → WfOutcome) (files : List UploadFile) (t ts : Nat)
    (e : PyError) (pf : List FileInfo) (msg : String) :
    (process_files st files = Except.error e →
      (process_claim rid st wf files t ts).workflow_status = "error" ∧
      (process_claim rid st wf files t ts).agent_outputs = none ∧
      (process_claim rid st wf files t ts).recommended_actions =
        some [if strContains (pyErrStr e) "timeout" then "Contact support"
              else "Retry processing"]) ∧
    (process_files st files = Except.ok pf → wf pf = WfOutcome.timeout →
      (process_claim rid st wf files t ts).workflow_status = "error" ∧
      (process_claim rid st wf files t ts).agent_outputs = none ∧
      (process_claim rid st wf files t ts).recommended_actions = some ["Contact support"]) ∧
    (process_files st files = Except.ok pf → wf pf = WfOutcome.exc msg →
      (process_claim rid st wf files t ts).workflow_status = "error" ∧
      (process_claim rid st wf files t ts).agent_outputs = none ∧
      (process_claim rid st wf files t ts).recommended_actions =
        some [if strContains msg "timeout" then "Contact support" else "Retry processing"]) := by
  refine ⟨fun h => ?_, fun h1 h2 => ?_, fun h1 h2 => ?_⟩
  · simp [process_claim, h, create_error_response]
  · simp [process_claim, h1, h2, create_error_response,
      show strContains "timeout" "timeout" = true from rfl]
  · simp [process_claim, h1, h2, create_error_response]

/-- Witness for the amended C3: the concrete non-timeout failure with
message "upstream timeout". -/
theorem C3_witness_concrete_failure :
    (process_claim "r" stDefault wfUpstream [goodFile] 0 0).workflow_status = "error" ∧
    (process_claim "r" stDefault wfUpstream [goodFile] 0 0).agent_outputs = none ∧
    (process_claim "r" stDefault wfUpstream [goodFile] 0 0).recommended_actions =
      some [if strContains "upstream timeout" "timeout" then "Contact support"
            else "Retry processing"] :=
  (C3_amended_error_report_shape "r" stDefault wfUpstream [goodFile] 0 0
    (PyError.other "x") pfGood "upstream timeout").2.2 rfl rfl

/-- Counterexample to C4 as stated: a run whose workflow wrote only a
documents entry completes with workflow_status "completed", yet the
claim_decision entry of agent_outputs is null, so it has no status field
at all — the claim said the status field is never absent for completed
runs. -/
theorem C4_counterexample_completed_run_null_decision :
    (process_claim "r" stDefault wfDoc [goodFile] 0 0).workflow_status = "completed" ∧
    (process_claim "r" stDefault wfDoc [goodFile] 0 0).agent_outputs =
      some (agent_outputs_of [("documents", Val.str "d")]) ∧
    (agent_outputs_of [("documents", Val.str "d")]).lookup "claim_decision" = some none :=
  ⟨rfl, rfl, rfl⟩

/-- Claim C4 as amended: for every run that completes with a
claim_decision entry present in the final state and conformant to the
ClaimDecision schema (which holds of everything the decision stage
actually writes, its output being validated against that schema), the run
reports workflow_status "completed", passes the decision value through,
and that value's status field is present and one of exactly "approved",
"rejected", "pending". -/
theorem C4_amended_decision_status_enum (rid : String) (st : Settings)
    (wf : List FileInfo → WfOutcome) (files : List UploadFile) (t ts : Nat)
    (pf : List FileInfo) (s : SessionState) (v : Val) (d : ClaimDecision)
    (h1 : process_files st files = Except.ok pf) (h2 : wf pf = WfOutcome.ok s)
    (h3 : s.get? "claim_decision" = some v)
    (h4 : ClaimDecision.validate v = some d) :
    (process_claim rid st wf files t ts).workflow_status = "completed" ∧
    (agent_outputs_of s).lookup "claim_decision" = some (some v) ∧
    objGet v "status" = some (Val.str d.status.toStr) ∧
    (d.status.toStr = "approved" ∨ d.status.toStr = "rejected" ∨
      d.status.toStr = "pending") := by
  have hne : s.isEmpty = false := by
    cases s with
    | nil => simp [SessionState.get?] at h3
    | cons a l => rfl
  refine ⟨?_, ?_, ?_, ?_⟩
  · simp [process_claim, h1, h2, create_final_response, hne]
  · show some (s.get? "claim_decision") = some (some v)
    rw [h3]
  · exact statusField_eq v d.status (validate_some v d h4)
  · cases hd : d.status <;> simp [DecisionStatus.toStr]

/-- Witness for the amended C4: the concrete run whose workflow wrote the
schema-conformant approved decision. -/
theorem C4_witness_concrete_decision :
    (process_claim "r" stDefault wfDecision [goodFile] 0 0).workflow_status = "completed" ∧
    (agent_outputs_of sDecision).lookup "claim_decision" = some (some vDecision) ∧
    objGet vDecision "status" = some (Val.str dApproved.status.toStr) ∧
    (dApproved.status.toStr = "approved" ∨ dApproved.status.toStr = "rejected" ∨
      dApproved.status.toStr = "pending") :=
  C4_amended_decision_status_enum "r" stDefault wfDecision [goodFile] 0 0 pfGood
    sDecision vDecision dApproved rfl rfl rfl rfl

/-- Claim C5 concerns a repository bug: extract_text_from_pdf converts
every extraction failure into an HTTPException, and process_files
re-raises HTTPExceptions, so a batch containing one file whose extraction
fails aborts the whole run with HTTP 500 instead of representing the
failed file inline (the status-failed branch of process_files and the
inline error marker of _format_input_text are unreachable for extraction
failures). Evaluated here on the concrete two-file batch. -/
theorem C5_extraction_failure_aborts_run :
    extract_text_from_pdf badFile =
      Except.error (PyError.http 500 "Failed to extract text from b.pdf: EOF marker not found") ∧
    process_files stDefault [goodFile, badFile] =
      Except.error (PyError.http 500 "Failed to extract text from b.pdf: EOF marker not found") ∧
    (process_claim "r" stDefault wfDoc [goodFile, badFile] 0 0).workflow_status = "error" ∧
    (process_claim "r" stDefault wfDoc [goodFile, badFile] 0 0).agent_outputs = none :=
  ⟨rfl, rfl, rfl, rfl⟩

/-- Claim C6: the result assembler is total over every final-state
mapping: for an arbitrary session state (any subset of the six keys
present, values of arbitrary shape) it produces a report in which every
declared key is bound to the state's entry exactly as stored (absent keys
become none, present values pass through unmodified), and the full raw
state is exposed alongside. -/
theorem C6_result_assembler_total (rid : String) (s : SessionState) (t ts : Nat) :
    (create_final_response rid s t ts).agent_outputs = some (agent_outputs_of s) ∧
    (agent_outputs_of s).map Prod.fst = agentOutputKeys ∧
    (agent_outputs_of s).lookup "documents" = some (s.get? "documents") ∧
    (agent_outputs_of s).lookup "bill_data" = some (s.get? "bill_data") ∧
    (agent_outputs_of s).lookup "discharge_data" = some (s.get? "discharge_data") ∧
    (agent_outputs_of s).lookup "claim_data" = some (s.get? "claim_data") ∧
    (agent_outputs_of s).lookup "validation_results" = some (s.get? "validation_results") ∧
    (agent_outputs_of s).lookup "claim_decision" = some (s.get? "claim_decision") ∧
    (create_final_response rid s t ts).raw_session_state = some s :=
  ⟨rfl, rfl, rfl, rfl, rfl, rfl, rfl, rfl, rfl⟩

/-- Claim C7: the constructed pipeline is exactly four sequential
elements — classification, the parallel fan-out of the bill, discharge
and claim-data extractors, validation, decision, in this order — the
fan-out member output keys are precisely the pairwise-distinct
bill_data, discharge_data, claim_data, and the (spec-modelled) checked
fan-out constructor accepts this group while rejecting any group with
duplicate member output keys at build time. -/
theorem C7_pipeline_structure :
    create_health_insurance_claim_processor_agent.subAgents.length = 4 ∧
    create_health_insurance_claim_processor_agent.subAgents.map AgentTree.outKey =
      [some "documents", none, some "validation_results", some "claim_decision"] ∧
    memberKeys ((create_health_insurance_claim_processor_agent.subAgents.getD 1
      (AgentTree.llm "" "")).subAgents) = ["bill_data", "discharge_data", "claim_data"] ∧
    (["bill_data", "discharge_data", "claim_data"] : List String).Nodup ∧
    ParallelAgentChecked "ParallelDocumentProcessingAgent"
      [create_bill_processing_agent, create_discharge_processing_agent,
       create_claim_data_agent] =
      Except.ok (AgentTree.par "ParallelDocumentProcessingAgent"
        [create_bill_processing_agent, create_discharge_processing_agent,
         create_claim_data_agent]) ∧
    (∀ (n : String) (sub : List AgentTree), ¬ (memberKeys sub).Nodup →
      ParallelAgentChecked n sub =
        Except.error "configuration error: duplicate output keys in parallel group") := by
  refine ⟨rfl, rfl, rfl, by decide, rfl, ?_⟩
  intro n sub hdup
  unfold ParallelAgentChecked
  rw [if_neg hdup]

/-- Witness for C7: a two-member group sharing the output key "k" is
rejected at construction time. -/
theorem C7_witness_duplicate_key_rejected :
    ParallelAgentChecked "G" [AgentTree.llm "A" "k", AgentTree.llm "B" "k"] =
      Except.error "configuration error: duplicate output keys in parallel group" :=
  C7_pipeline_structure.2.2.2.2.2 "G" [AgentTree.llm "A" "k", AgentTree.llm "B" "k"]
    (by decide)

/-- Claim C8: result assembly is deterministic — two assemblies over the
same final shared state agree on every report field other than
request_id, processing_time and timestamp (in particular agent_outputs
is identical). -/
theorem C8_assembly_deterministic (rid1 rid2 : String) (s : SessionState)
    (t1 t2 ts1 ts2 : Nat) :
    (create_final_response rid1 s t1 ts1).agent_outputs =
      (create_final_response rid2 s t2 ts2).agent_outputs ∧
    (create_final_response rid1 s t1 ts1).workflow_status =
      (create_final_response rid2 s t2 ts2).workflow_status ∧
    (create_final_response rid1 s t1 ts1).raw_session_state =
      (create_final_response rid2 s t2 ts2).raw_session_state ∧
    (create_final_response rid1 s t1 ts1).error =
      (create_final_response rid2 s t2 ts2).error ∧
    (create_final_response rid1 s t1 ts1).recommended_actions =
      (create_final_response rid2 s t2 ts2).recommended_actions :=
  ⟨rfl, rfl, rfl, rfl, rfl⟩

/-- Claim C9: for every run finishing without timeout or exception, the
report's workflow_status is "no_outputs" exactly when the final shared
state is the empty mapping, and in that case all six agent_outputs
entries are null and raw_session_state is the empty mapping. -/
theorem C9_no_outputs_iff_empty_state (rid : String) (st : Settings)
    (wf : List FileInfo → WfOutcome) (files : List UploadFile) (t ts : Nat)
    (pf : List FileInfo) (s : SessionState)
    (h1 : process_files st files = Except.ok pf) (h2 : wf pf = WfOutcome.ok s) :
    ((process_claim rid st wf files t ts).workflow_status = "no_outputs" ↔ s = []) ∧
    (s = [] →
      (process_claim rid st wf files t ts).agent_outputs =
        some [("documents", none), ("bill_data", none), ("discharge_data", none),
              ("claim_data", none), ("validation_results", none),
              ("claim_decision", none)] ∧
      (process_claim rid st wf files t ts).raw_session_state = some ([] : SessionState)) := by
  constructor
  · cases s with
    | nil => simp [process_claim, h1, h2, create_final_response]
    | cons a l => simp [process_claim, h1, h2, create_final_response]
  · intro hs
    subst hs
    constructor
    · simp [process_claim, h1, h2, create_final_response, agent_outputs_of,
        SessionState.get?]
    · simp [process_claim, h1, h2, create_final_response]

/-- Witness for C9: the concrete run whose workflow finishes with the
empty session state. -/
theorem C9_witness_empty_state :
    ((process_claim "r" stDefault wfEmptyState [goodFile] 0 0).workflow_status =
      "no_outputs" ↔ ([] : SessionState) = []) ∧
    (process_claim "r" stDefault wfEmptyState [goodFile] 0 0).agent_outputs =
      some [("documents", none), ("bill_data", none), ("discharge_data", none),
            ("claim_data", none), ("validation_results", none),
            ("claim_decision", none)] ∧
    (process_claim "r" stDefault wfEmptyState [goodFile] 0 0).raw_session_state =
      some ([] : SessionState) := by
  have h := C9_no_outputs_iff_empty_state "r" stDefault wfEmptyState [goodFile] 0 0
    pfGood [] rfl rfl
  exact ⟨h.1, (h.2 rfl).1, (h.2 rfl).2⟩

/-- Claim C10: for the empty batch, validation rejects with HTTP 400
"No files provided" before any extraction, the resulting report is an
error report with "Retry processing" and no run state, and the pipeline
is never invoked — the report does not depend on the workflow at all. -/
theorem C10_empty_batch_rejected_before_pipeline (rid : String) (st : Settings)
    (wf wf2 : List FileInfo → WfOutcome) (t ts : Nat) :
    validate_files st [] = Except.error (PyError.http 400 "No files provided") ∧
    process_files st [] = Except.error (PyError.http 400 "No files provided") ∧
    (process_claim rid st wf [] t ts).workflow_status = "error" ∧
    (process_claim rid st wf [] t ts).error = some "400: No files provided" ∧
    (process_claim rid st wf [] t ts).recommended_actions = some ["Retry processing"] ∧
    (process_claim rid st wf [] t ts).agent_outputs = none ∧
    (process_claim rid st wf [] t ts).raw_session_state = none ∧
    process_claim rid st wf [] t ts = process_claim rid st wf2 [] t ts :=
  ⟨rfl, rfl, rfl, rfl, rfl, rfl, rfl, rfl⟩

end HICP

